import Mathlib

/-!
Verification of the `box` container image builder (leslie-qiwa/box) against
its natural-language specification.  The Go sources are shallowly embedded:
pure helpers become Lean functions, the mruby query functions of
`builder/funcs.go` become functions over an explicit image state and an
engine-content oracle (returning the result together with the number of
Engine Adapter calls issued), the REPL loop of the `repl` package becomes an
explicit state-transition function, and the exit-code decisions of `main.go`
become functions from the relevant outcome flags to an exit outcome.
-/

namespace Box

/-- Result of one mruby builder function call: a returned string value, a
raised mruby exception carrying a message, or a Go runtime panic
(out-of-bounds index). -/
inductive FuncResult where
  | ok (s : String)
  | exn (msg : String)
  | panic
deriving DecidableEq, Repr

/-- Go `strings.Split(s, string(c))` on the character list of `s`: split at
every occurrence of `c`, keeping empty fields; the empty string yields one
empty field. -/
def splitOnChar (c : Char) : List Char → List (List Char)
  | [] => [[]]
  | x :: xs =>
    match splitOnChar c xs with
    | [] => [[x]]
    | y :: ys => if x = c then [] :: y :: ys else (x :: y) :: ys

/-- Go `strings.Split(s, string(c))` as a function on `String`. -/
def goSplit (c : Char) (s : String) : List String :=
  (splitOnChar c s.data).map String.mk

/-- Message raised by `read`, `getuid` and `getgid` when the image state is
empty (`b.ImageID() == ""`): all three sites use this exact text. -/
def prereqMsg : String := "from has not been called, no image can be used to get the UID"

/-- The entry-scanning loop shared by `getuid` and `getgid`: for each line,
split on `:`; if field 0 equals the queried name return field 2 (a Go
out-of-bounds panic when the matching line has fewer than three fields);
if no line matches, raise the not-found exception. -/
def lookupEntries (name notFound : String) : List String → FuncResult
  | [] => .exn notFound
  | ent :: rest =>
    let parts := goSplit ':' ent
    if parts.headD "" = name then
      match parts.get? 2 with
      | some v => .ok v
      | none => .panic
    else lookupEntries name notFound rest

/-- `getenv` outcome: a returned value, or `os.Exit(code)` (taken on a wrong
argument count). -/
inductive GetenvOut where
  | val (s : String)
  | exit (code : Nat)
deriving DecidableEq, Repr

/-- `getenv` of `builder/funcs.go`: with an argument count other than 1 it
prints and calls `os.Exit(1)`; otherwise it returns `os.Getenv(args[0])`,
which is the empty string when the variable is unset (environment modelled
as `String → Option String`). It never consults the image state or the
engine. -/
def getenv (env : String → Option String) (args : List String) : GetenvOut :=
  if args.length ≠ 1 then .exit 1
  else .val ((env (args.headD "")).getD "")

/-- `read` of `builder/funcs.go`: argument-count check, then the empty-image
prerequisite check, then one `containerContent` engine call whose result (or
error) is returned. The second component counts Engine Adapter calls
issued. -/
def read (image : String) (fileContent : Except String String)
    (args : List String) : FuncResult × Nat :=
  if args.length ≠ 1 then (.exn ("Expected 1 arg, got " ++ toString args.length), 0)
  else if image = "" then (.exn prereqMsg, 0)
  else
    match fileContent with
    | .error e => (.exn e, 1)
    | .ok content => (.ok content, 1)

/-- `getuid` of `builder/funcs.go`: argument-count check, empty-image
prerequisite check, one engine call reading `/etc/passwd` (its outcome is
the `passwd` argument), then the line scan for the user name. The second
component counts Engine Adapter calls issued. -/
def getuid (image : String) (passwd : Except String String)
    (args : List String) : FuncResult × Nat :=
  if args.length ≠ 1 then (.exn ("Expected 1 arg, got " ++ toString args.length), 0)
  else if image = "" then (.exn prereqMsg, 0)
  else
    match passwd with
    | .error e => (.exn e, 1)
    | .ok content =>
      let user := args.headD ""
      (lookupEntries user ("Could not find user \"" ++ user ++ "\"")
        (goSplit '\n' content), 1)

/-- `getgid` of `builder/funcs.go`: identical to `getuid` except the engine
call reads `/etc/group` and the not-found message says `group`. -/
def getgid (image : String) (group : Except String String)
    (args : List String) : FuncResult × Nat :=
  if args.length ≠ 1 then (.exn ("Expected 1 arg, got " ++ toString args.length), 0)
  else if image = "" then (.exn prereqMsg, 0)
  else
    match group with
    | .error e => (.exn e, 1)
    | .ok content =>
      let g := args.headD ""
      (lookupEntries g ("Could not find group \"" ++ g ++ "\"")
        (goSplit '\n' content), 1)

/-- Check along the suffixes of `l` whether `pat` is a prefix of one of
them, i.e. whether `pat` occurs contiguously inside `l`. -/
def containsSub (pat : List Char) : List Char → Bool
  | [] => pat.isEmpty
  | x :: xs => pat.isPrefixOf (x :: xs) || containsSub pat xs

/-- String containment used to state that an error message carries the
queried name: `pat` occurs as a contiguous substring of `s`. -/
def strContains (s pat : String) : Bool :=
  containsSub pat.data s.data

/-- Go `strings.SplitN(s, string(c), 2)`: split around the first occurrence
of `c` only; when `c` does not occur the whole string is the single piece. -/
def splitFirst (c : Char) : List Char → Option (List Char × List Char)
  | [] => none
  | x :: xs =>
    if x = c then some ([], xs)
    else (splitFirst c xs).map fun p => (x :: p.1, p.2)

/-- Go `strings.SplitN(s, string(c), 2)` as a function on `String`. -/
def goSplitN2 (c : Char) (s : String) : List String :=
  match splitFirst c s.data with
  | none => [s]
  | some (a, b) => [String.mk a, String.mk b]

/-- One step of `parseVars` of `main.go`: `parts := strings.SplitN(v, "=", 2);
vars[parts[0]] = parts[1]`. When `v` contains no `=`, `SplitN` yields a
single piece and the access `parts[1]` is a Go out-of-bounds panic, modelled
as `none`. -/
def parseVarsStep (v : String) : Option (String × String) :=
  let parts := goSplitN2 '=' v
  match parts.get? 0, parts.get? 1 with
  | some k, some val => some (k, val)
  | _, _ => none

/-- `parseVars` of `main.go` over the repeated `--var` values, in order;
`none` models the out-of-bounds panic on a value without `=`. Later
bindings of the same key overwrite earlier ones in the Go map; the
association list keeps them in order, which suffices for the claims. -/
def parseVars (vs : List String) : Option (List (String × String)) :=
  vs.mapM parseVarsStep

/-- `getCache` of `main.go`: `cache := os.Getenv("NO_CACHE") == ""`, then the
`no-cache` flag forces `cache = false`. -/
def getCache (noCacheEnv : String) (noCacheFlag : Bool) : Bool :=
  let cache := noCacheEnv = ""
  if noCacheFlag then false else cache

/-- Outcome of `detectFile` of `main.go`: either help is printed and the
process exits 0, or a plan file name is returned. -/
inductive DetectResult where
  | helpExit0
  | file (name : String)
deriving DecidableEq, Repr

/-- `detectFile` of `main.go`: with no positional argument, a missing
`box.rb` prints the app help and exits 0, an existing `box.rb` is used as
the plan file; otherwise the first argument is the plan file. -/
def detectFile (args : List String) (boxRbMissing : Bool) : DetectResult :=
  match args with
  | [] => if boxRbMissing then .helpExit0 else .file "box.rb"
  | a :: _ => .file a

/-- How an execution path leaves the process: an explicit `os.Exit(code)`,
or a normal return. -/
inductive ExitOutcome where
  | code (n : Nat)
  | normal
deriving DecidableEq, Repr

/-- Exit decision of the default (one-shot) `app.Action` of `main.go` after
flag parsing: builder construction error exits 1, a failed `b.Run()` exits
1, a failed `b.Tag(tag)` (when a tag was requested) exits 1, otherwise the
action returns normally (process exit 0). -/
def mainActionExit (builderErr runErr : Bool) (tagRequested tagErr : Bool) : ExitOutcome :=
  if builderErr then .code 1
  else if runErr then .code 1
  else if tagRequested && tagErr then .code 1
  else .normal

/-- Exit decision of `runMulti` of `main.go`: a builder construction error
for any plan exits 1; after `mb.Build()`, a non-nil `mb.Wait()` error exits
2; otherwise the command returns normally (process exit 0). -/
def runMultiExit (builderErrs : List Bool) (waitErr : Bool) : ExitOutcome :=
  if builderErrs.any id then .code 1
  else if waitErr then .code 2
  else .normal

/-- Exit decision of `runRepl` of `main.go`: a failure to bootstrap the
REPL exits 1; otherwise the loop manages its own exit states. -/
def runReplBootExit (newReplErr : Bool) : ExitOutcome :=
  if newReplErr then .code 1 else .normal

/-- Exit decision of the deferred recover in `Repl.Loop` of the repl
package: a recovered panic during interactive evaluation exits 2. -/
def loopPanicExit (panicked : Bool) : ExitOutcome :=
  if panicked then .code 2 else .normal

/-- Exit decision of the outermost `app.Run` error check in `main`: a cli
error (bad flags) is logged and exits 1. -/
def appRunExit (appErr : Bool) : ExitOutcome :=
  if appErr then .code 1 else .normal

/-- Go `strings.TrimSpace`: drop leading and trailing whitespace. -/
def trimSpace (s : String) : String :=
  String.mk (((s.data.dropWhile Char.isWhitespace).reverse.dropWhile
    Char.isWhitespace).reverse)

/-- The identity-relevant part of the `Repl` struct: the current evaluator
and engine adapter instances (as generation numbers, bumped whenever
`docker.NewDocker` / `mruby.NewMRuby` construct fresh ones), the variables
the current evaluator's interpreter was constructed with, and `r.vars`, the
variables supplied at `NewRepl`. -/
structure ReplCore where
  evalGen : Nat
  execGen : Nat
  evalVars : List (String × String)
  vars : List (String × String)
deriving DecidableEq, Repr

/-- Outcome of `checkQuit`: `os.Exit(0)` for quit/exit, handled without
evaluation (`return true, nil`) for help and a successful reset, a
construction error (`return false, err`), or fall-through to the evaluator
(`return false, nil`). -/
inductive CheckOut where
  | exitZero
  | handled
  | failed (msg : String)
  | pass
deriving DecidableEq, Repr

/-- `checkQuit` of the repl package: switch on `strings.TrimSpace(line)`;
`quit`/`exit` call `os.Exit(0)`, `help` prints help and is handled,
`reset` constructs a fresh engine adapter (`docker.NewDocker`) and a fresh
evaluator (`mruby.NewMRuby`) whose interpreter receives exactly `r.vars`,
replacing the current one; possible construction failures are the
`dockerErr`/`mrubyErr` parameters. Anything else falls through. -/
def checkQuit (r : ReplCore) (line : String) (dockerErr mrubyErr : Option String) :
    CheckOut × ReplCore :=
  let t := trimSpace line
  if t = "quit" ∨ t = "exit" then (.exitZero, r)
  else if t = "help" then (.handled, r)
  else if t = "reset" then
    match dockerErr with
    | some e => (.failed e, r)
    | none =>
      match mrubyErr with
      | some e => (.failed e, r)
      | none =>
        (.handled,
          { r with execGen := r.execGen + 1, evalGen := r.evalGen + 1,
                   evalVars := r.vars })
  else (.pass, r)

/-- Errors an incremental `RunCode` call can report: an mruby
`*gm.ParserError`, or any other evaluation error. -/
inductive EvalErr where
  | parserError
  | otherError
deriving DecidableEq, Repr

/-- Prompt shown by the session: `box> ` or the continuation prompt
`box*> `. -/
inductive Prompt where
  | normal
  | multiline
deriving DecidableEq, Repr

/-- Mutable state of `doLoop`: the buffered partial statement `line`, the
mruby stack-keep continuation integer, the current prompt, and the repl
core (evaluator / engine adapter identity). -/
structure SessState where
  line : String
  stackKeep : Int
  prompt : Prompt
  core : ReplCore
deriving DecidableEq, Repr

/-- Observable outcome of one `doLoop` iteration. -/
inductive StepOut where
  | exited (code : Nat)
  | intercepted
  | incomplete
  | errorPrinted
  | resultPrinted
deriving DecidableEq, Repr

/-- One iteration of `doLoop` of the repl package, after the reader produced
the fragment `frag` (the interrupt and reader-error paths are separate):
`readChannels` appends `frag ++ "\n"` to the buffered line; `checkQuit`
intercepts special inputs (a failed reset prints and exits 1, a handled one
clears the buffer and skips evaluation); otherwise `RunCode(line,
stackKeep, false)` runs — abstracted as the function argument `runCode`
returning the new stack-keep and an optional error. A `ParserError` with an
unchanged stack-keep keeps the buffer and switches to the continuation
prompt; every other outcome stores the new stack-keep, clears the buffer
and resets the prompt, printing the error if one occurred, else logging the
result. The third component counts how many times the evaluator was
invoked. -/
def doLoopStep (st : SessState) (frag : String)
    (runCode : String → Int → Int × Option EvalErr)
    (dockerErr mrubyErr : Option String) : SessState × StepOut × Nat :=
  let line := st.line ++ frag ++ "\n"
  match checkQuit st.core line dockerErr mrubyErr with
  | (.exitZero, c) => ({ st with core := c }, .exited 0, 0)
  | (.failed _, c) => ({ st with core := c }, .exited 1, 0)
  | (.handled, c) => ({ st with line := "", core := c }, .intercepted, 0)
  | (.pass, c) =>
    let r := runCode line st.stackKeep
    if r.2 = some .parserError ∧ r.1 = st.stackKeep then
      ({ st with line := line, prompt := .multiline, core := c }, .incomplete, 1)
    else
      let st' := { st with stackKeep := r.1, line := "", prompt := .normal, core := c }
      match r.2 with
      | some _ => (st', .errorPrinted, 1)
      | none => (st', .resultPrinted, 1)

/-- Events at the head of each `doLoop` iteration, in source order: cancel
the previous iteration's scope (when one exists), create a fresh
cancellation context, register its cancel function with the coordinator,
then block reading the next input; evaluation follows. -/
inductive LoopEvent where
  | cancelScope (n : Nat)
  | newScope (n : Nat)
  | registerScope (n : Nat)
  | readInput (n : Nat)
  | evaluate (n : Nat)
deriving DecidableEq, Repr

/-- Events of iteration `i` of `doLoop` up to (excluding) evaluation:
`if cancel != nil { cancel() }`, then `context.WithCancel`, then
`signal.Handler.AddFunc(cancel)`, then the channel read. -/
def iterPreEval (i : Nat) : List LoopEvent :=
  (if i = 0 then [] else [.cancelScope (i - 1)]) ++
    [.newScope i, .registerScope i, .readInput i]

/-- Full event list of iteration `i` of `doLoop`. -/
def iterEvents (i : Nat) : List LoopEvent :=
  iterPreEval i ++ [.evaluate i]

/-- Event trace of `doLoop` from the start up to the moment iteration `n`
is about to evaluate: the `n` completed iterations, then iteration `n`'s
pre-evaluation events. -/
def traceUpToEval (n : Nat) : List LoopEvent :=
  ((List.range n).map iterEvents).flatten ++ iterPreEval n

/-- Cancellation scopes created in a trace. -/
def scopesCreated (evs : List LoopEvent) : List Nat :=
  evs.filterMap fun e => match e with | .newScope k => some k | _ => none

/-- Cancellation scopes cancelled in a trace. -/
def scopesCancelled (evs : List LoopEvent) : List Nat :=
  evs.filterMap fun e => match e with | .cancelScope k => some k | _ => none

/-- Scopes created but not yet cancelled. -/
def activeScopes (evs : List LoopEvent) : List Nat :=
  (scopesCreated evs).filter fun k => decide (k ∉ scopesCancelled evs)

/-- Modelled from the spec: the Cancellation Coordinator (`signal.Handler`
of the `signal` package, which is not under src/). It keeps registered
cancel functions (as scope ids) and an `Exit` mode flag; §4.4: `Trigger()`
calls every registered cancel function exactly once and clears the list;
in terminate mode (`Exit` true) it is followed by process termination, in
interactive mode (`Exit` false) it does not terminate the process. -/
structure SignalHandler where
  exitFlag : Bool
  funcs : List Nat
deriving DecidableEq, Repr

/-- `AddFunc`: register one cancel function with the coordinator. -/
def SignalHandler.addFunc (h : SignalHandler) (scope : Nat) : SignalHandler :=
  { h with funcs := h.funcs ++ [scope] }

/-- Modelled from the spec: `Trigger()` — returns the coordinator with its
registry cleared, the list of scopes whose cancel functions were called
(each exactly once), and whether the process terminates (only in terminate
mode). -/
def SignalHandler.trigger (h : SignalHandler) : SignalHandler × List Nat × Bool :=
  ({ h with funcs := [] }, h.funcs, h.exitFlag)

/-- `NewRepl` of the repl package sets `signal.Handler.Exit = false` before
entering the loop, putting the coordinator in interactive mode. -/
def replHandlerExitFlag : Bool := false

end Box

/-- C1: for the user lookup query (getuid), given passwd-style content
`"alice:x:1000:1000::/home/alice:/bin/bash\n"` in the container, looking up
`"alice"` returns `"1000"`, and looking up the absent name `"bob"` raises a
not-found exception whose message contains the literal `bob`. -/
theorem C1_getuid_lookup :
    (Box.getuid "img" (.ok "alice:x:1000:1000::/home/alice:/bin/bash\n")
        ["alice"]).1 = Box.FuncResult.ok "1000"
    ∧ (Box.getuid "img" (.ok "alice:x:1000:1000::/home/alice:/bin/bash\n")
        ["bob"]).1 = Box.FuncResult.exn ("Could not find user \"" ++ "bob" ++ "\"")
    ∧ Box.strContains ("Could not find user \"" ++ "bob" ++ "\"") "bob" = true :=
  ⟨by decide, by decide, by decide⟩

/-- C2: every filesystem-dependent query (read, getuid, getgid), invoked
with its one argument while the image state is empty, fails with the
prerequisite exception (whose message names the missing `from` call) and
issues zero Engine Adapter calls. -/
theorem C2_prereq_guard (a : String) (c : Except String String) :
    Box.read "" c [a] = (.exn Box.prereqMsg, 0)
    ∧ Box.getuid "" c [a] = (.exn Box.prereqMsg, 0)
    ∧ Box.getgid "" c [a] = (.exn Box.prereqMsg, 0)
    ∧ Box.strContains Box.prereqMsg "from has not been called" = true := by
  refine ⟨?_, ?_, ?_, by decide⟩ <;> simp [Box.read, Box.getuid, Box.getgid]

/-- C9: getenv with exactly one argument always returns a value — the named
environment variable's value, and the empty string when it is unset — and
never raises an evaluator exception; it is the only query of the function
table that does not require a non-empty image state, whereas read, getuid
and getgid all fail on an empty image state. -/
theorem C9_getenv_total (env : String → Option String) (name : String)
    (c : Except String String) :
    Box.getenv env [name] = .val ((env name).getD "")
    ∧ Box.getenv (fun _ => none) [name] = .val ""
    ∧ (Box.read "" c [name]).1 = .exn Box.prereqMsg
    ∧ (Box.getuid "" c [name]).1 = .exn Box.prereqMsg
    ∧ (Box.getgid "" c [name]).1 = .exn Box.prereqMsg := by
  refine ⟨?_, ?_, ?_, ?_, ?_⟩ <;>
    simp [Box.getenv, Box.read, Box.getuid, Box.getgid]

/-- C7: caching is enabled exactly when the NO_CACHE environment variable is
empty and the no-cache flag is absent; passing the flag disables caching
regardless of the environment. -/
theorem C7_cache_flag (env : String) (flag : Bool) :
    (Box.getCache env flag = true ↔ (env = "" ∧ flag = false))
    ∧ Box.getCache env true = false := by
  constructor
  · unfold Box.getCache
    cases flag <;> simp
  · simp [Box.getCache]

/-- C10: with no filename argument, a missing box.rb prints the help and
exits 0 (no missing-file error), while an existing box.rb is used as the
plan file; an explicit argument is used verbatim. -/
theorem C10_detectFile (a : String) (rest : List String) :
    Box.detectFile [] true = .helpExit0
    ∧ Box.detectFile [] false = .file "box.rb"
    ∧ Box.detectFile (a :: rest) true = .file a := by
  refine ⟨rfl, rfl, rfl⟩

/-- C8: evaluation of `parseVars` at the failing input — a variable argument
without `=` makes `parts[1]` an out-of-bounds access (a Go panic, modelled
as `none`), contradicting the claim that variable parsing never faults;
well-formed key=value arguments parse as expected. -/
theorem C8_parseVars_panic :
    Box.parseVars ["foo"] = none
    ∧ Box.parseVarsStep "foo" = none
    ∧ Box.parseVars ["a=b", "k=v=w"] = some [("a", "b"), ("k", "v=w")] := by
  refine ⟨by decide, by decide, by decide⟩

/-- C4 counterexample: a failing build under the multi subcommand — one
plan whose builder constructs fine but whose build fails, so `mb.Wait()`
returns an error — exits with code 2, not code 1 as the claim states. -/
theorem C4_multi_failure_exits_2 :
    Box.runMultiExit [false] true = .code 2
    ∧ Box.runMultiExit [false] true ≠ .code 1 := by
  refine ⟨rfl, by decide⟩

/-- C4 amended: exit 0 on success; exit 1 for one-shot recoverable errors
(bad flags/config, builder construction failure, build failure, tag
failure), for a multi builder-construction failure, and for a REPL
bootstrap failure; exit 2 for a panic during interactive evaluation and
also for a failing multi build (a non-nil `mb.Wait()` error). -/
theorem C4_exit_codes (runErr tagErr waitErr : Bool) (tagReq : Bool) :
    Box.mainActionExit false false false false = .normal
    ∧ Box.mainActionExit true runErr tagReq tagErr = .code 1
    ∧ Box.mainActionExit false true tagReq tagErr = .code 1
    ∧ Box.mainActionExit false false true true = .code 1
    ∧ Box.appRunExit true = .code 1
    ∧ Box.runMultiExit [true] waitErr = .code 1
    ∧ Box.runMultiExit [false, false] true = .code 2
    ∧ Box.runMultiExit [false] false = .normal
    ∧ Box.loopPanicExit true = .code 2
    ∧ Box.loopPanicExit false = .normal
    ∧ Box.runReplBootExit true = .code 1 := by
  refine ⟨rfl, rfl, ?_, rfl, rfl, ?_, rfl, rfl, rfl, rfl, rfl⟩
  · simp [Box.mainActionExit]
  · simp [Box.runMultiExit]

/-- Helper: a line whose trimmed form is one of the special inputs never
falls through `checkQuit` to the evaluator. -/
theorem checkQuit_special_not_pass (r : Box.ReplCore) (s : String)
    (d m : Option String)
    (h : Box.trimSpace s = "help" ∨ Box.trimSpace s = "reset"
      ∨ Box.trimSpace s = "quit" ∨ Box.trimSpace s = "exit") :
    (Box.checkQuit r s d m).1 ≠ .pass := by
  simp only [Box.checkQuit]
  rcases h with h | h | h | h <;> rw [h]
  · simp
  · cases d <;> cases m <;> simp
  · simp
  · simp

/-- C5: an input whose buffered line trims to one of the special inputs
help, reset, quit, exit is intercepted and the evaluator is invoked zero
times; a successful reset replaces both the evaluator and the engine
adapter with freshly constructed ones whose interpreter receives exactly
the previously supplied variables `r.vars`. -/
theorem C5_special_inputs (st : Box.SessState) (frag : String)
    (runCode : String → Int → Int × Option Box.EvalErr) (dErr mErr : Option String)
    (r : Box.ReplCore) (s : String)
    (hspec : Box.trimSpace (st.line ++ frag ++ "\n") = "help"
      ∨ Box.trimSpace (st.line ++ frag ++ "\n") = "reset"
      ∨ Box.trimSpace (st.line ++ frag ++ "\n") = "quit"
      ∨ Box.trimSpace (st.line ++ frag ++ "\n") = "exit")
    (hreset : Box.trimSpace s = "reset") :
    (Box.doLoopStep st frag runCode dErr mErr).2.2 = 0
    ∧ Box.checkQuit r s none none
        = (.handled, { r with execGen := r.execGen + 1, evalGen := r.evalGen + 1,
                              evalVars := r.vars }) := by
  constructor
  · have hnp := checkQuit_special_not_pass st.core (st.line ++ frag ++ "\n")
      dErr mErr hspec
    simp only [Box.doLoopStep]
    rcases hc : Box.checkQuit st.core (st.line ++ frag ++ "\n") dErr mErr with ⟨co, c⟩
    cases co <;> simp_all
  · simp only [Box.checkQuit]
    rw [hreset]
    simp

/-- C5 witness: the theorem applied with buffered line empty, the input
fragment `exit`, and the reset line `reset` at a concrete repl core. -/
theorem C5_special_inputs_witness :
    ((Box.trimSpace ("" ++ "exit" ++ "\n") = "help"
        ∨ Box.trimSpace ("" ++ "exit" ++ "\n") = "reset"
        ∨ Box.trimSpace ("" ++ "exit" ++ "\n") = "quit"
        ∨ Box.trimSpace ("" ++ "exit" ++ "\n") = "exit")
      ∧ Box.trimSpace "reset" = "reset")
    ∧ ((Box.doLoopStep ⟨"", 0, .normal, ⟨0, 0, [], [("k", "v")]⟩⟩ "exit"
          (fun _ k => (k, none)) none none).2.2 = 0
        ∧ Box.checkQuit ⟨3, 4, [], [("k", "v")]⟩ "reset" none none
          = (.handled, ⟨4, 5, [("k", "v")], [("k", "v")]⟩)) :=
  ⟨⟨by decide, by decide⟩,
    C5_special_inputs ⟨"", 0, .normal, ⟨0, 0, [], [("k", "v")]⟩⟩ "exit"
      (fun _ k => (k, none)) none none ⟨3, 4, [], [("k", "v")]⟩ "reset"
      (by decide) (by decide)⟩

/-- Helper: the buffered line handed to the evaluator always ends in a
newline and is therefore never the empty string — an incomplete statement
leaves a non-baseline (non-empty) buffer behind. -/
theorem buffered_line_ne_empty (s t : String) : s ++ t ++ "\n" ≠ "" := by
  intro h
  have hd : (s ++ t ++ "\n").data = ("" : String).data := congrArg String.data h
  simp [String.data_append] at hd

/-- C3: in incremental evaluation, a fragment on which `RunCode` reports a
parser error without consuming stack (syntactic incompleteness) yields the
`incomplete` outcome — no terminal error is printed, the (non-empty, hence
non-baseline) buffer is kept, and the prompt switches to the continuation
prompt; resubmitting that buffer concatenated with a completing fragment
yields a printed result, an empty (baseline) buffer and the normal prompt;
a genuine non-incompleteness error prints the error, discards the buffer
and resets the prompt. -/
theorem C3_incremental_protocol (st : Box.SessState) (frag frag2 : String)
    (runCode rcErr : String → Int → Int × Option Box.EvalErr)
    (dErr mErr : Option String) (k2 k3 : Int)
    (hq1 : Box.checkQuit st.core (st.line ++ frag ++ "\n") dErr mErr
      = (.pass, st.core))
    (hq2 : Box.checkQuit st.core ((st.line ++ frag ++ "\n") ++ frag2 ++ "\n")
      dErr mErr = (.pass, st.core))
    (hinc : runCode (st.line ++ frag ++ "\n") st.stackKeep
      = (st.stackKeep, some .parserError))
    (hdone : runCode ((st.line ++ frag ++ "\n") ++ frag2 ++ "\n") st.stackKeep
      = (k2, none))
    (herr : rcErr (st.line ++ frag ++ "\n") st.stackKeep = (k3, some .otherError)) :
    Box.doLoopStep st frag runCode dErr mErr
      = ({ st with line := st.line ++ frag ++ "\n", prompt := .multiline },
          .incomplete, 1)
    ∧ st.line ++ frag ++ "\n" ≠ ""
    ∧ Box.doLoopStep
        { st with line := st.line ++ frag ++ "\n", prompt := .multiline }
        frag2 runCode dErr mErr
      = ({ st with line := "", stackKeep := k2, prompt := .normal },
          .resultPrinted, 1)
    ∧ Box.doLoopStep st frag rcErr dErr mErr
      = ({ st with line := "", stackKeep := k3, prompt := .normal },
          .errorPrinted, 1) := by
  refine ⟨?_, buffered_line_ne_empty st.line frag, ?_, ?_⟩
  · simp [Box.doLoopStep, hq1, hinc]
  · simp [Box.doLoopStep, hq2, hdone]
  · simp [Box.doLoopStep, hq1, herr]

/-- C3 witness: the theorem applied at a concrete session state with the
fragment pair `if true` / `end` on a concrete evaluator that reports a
stack-preserving parser error on the first fragment and success on the
resubmitted concatenation, and a second evaluator that reports a genuine
error. -/
theorem C3_incremental_protocol_witness :
    (Box.checkQuit ⟨0, 0, [], []⟩ ("" ++ "if true" ++ "\n") none none
        = (.pass, ⟨0, 0, [], []⟩)
      ∧ Box.checkQuit ⟨0, 0, [], []⟩ (("" ++ "if true" ++ "\n") ++ "end" ++ "\n")
          none none = (.pass, ⟨0, 0, [], []⟩)
      ∧ (fun s (k : Int) => if s = "if true\n" then (k, some Box.EvalErr.parserError)
          else ((7 : Int), (none : Option Box.EvalErr))) ("" ++ "if true" ++ "\n") 0
        = (0, some .parserError)
      ∧ (fun s (k : Int) => if s = "if true\n" then (k, some Box.EvalErr.parserError)
          else ((7 : Int), (none : Option Box.EvalErr)))
          (("" ++ "if true" ++ "\n") ++ "end" ++ "\n") 0 = (7, none)
      ∧ (fun _ (_ : Int) => ((5 : Int), some Box.EvalErr.otherError))
          ("" ++ "if true" ++ "\n") 0 = (5, some .otherError))
    ∧ (Box.doLoopStep ⟨"", 0, .normal, ⟨0, 0, [], []⟩⟩ "if true"
          (fun s (k : Int) => if s = "if true\n" then (k, some Box.EvalErr.parserError)
            else ((7 : Int), (none : Option Box.EvalErr))) none none
        = (⟨"" ++ "if true" ++ "\n", 0, .multiline, ⟨0, 0, [], []⟩⟩,
            .incomplete, 1)
      ∧ "" ++ "if true" ++ "\n" ≠ ""
      ∧ Box.doLoopStep ⟨"" ++ "if true" ++ "\n", 0, .multiline, ⟨0, 0, [], []⟩⟩
          "end"
          (fun s (k : Int) => if s = "if true\n" then (k, some Box.EvalErr.parserError)
            else ((7 : Int), (none : Option Box.EvalErr))) none none
        = (⟨"", 7, .normal, ⟨0, 0, [], []⟩⟩, .resultPrinted, 1)
      ∧ Box.doLoopStep ⟨"", 0, .normal, ⟨0, 0, [], []⟩⟩ "if true"
          (fun _ (_ : Int) => ((5 : Int), some Box.EvalErr.otherError)) none none
        = (⟨"", 5, .normal, ⟨0, 0, [], []⟩⟩, .errorPrinted, 1)) :=
  ⟨⟨by decide, by decide, by decide, by decide, by decide⟩,
    C3_incremental_protocol ⟨"", 0, .normal, ⟨0, 0, [], []⟩⟩ "if true" "end"
      (fun s (k : Int) => if s = "if true\n" then (k, some Box.EvalErr.parserError)
        else ((7 : Int), (none : Option Box.EvalErr)))
      (fun _ (_ : Int) => ((5 : Int), some Box.EvalErr.otherError))
      none none 7 5 (by decide) (by decide) (by decide) (by decide) (by decide)⟩

/-- Helper: the trace up to the evaluation point of iteration `n + 1`
extends the previous trace with iteration `n`'s evaluation and iteration
`n + 1`'s pre-evaluation events. -/
theorem traceUpToEval_succ (n : Nat) :
    Box.traceUpToEval (n + 1)
      = Box.traceUpToEval n
        ++ ([Box.LoopEvent.evaluate n] ++ Box.iterPreEval (n + 1)) := by
  simp [Box.traceUpToEval, List.range_succ, Box.iterEvents]

/-- Helper: by the time iteration `n` evaluates, scopes `0..n` have been
created. -/
theorem scopesCreated_traceUpToEval (n : Nat) :
    Box.scopesCreated (Box.traceUpToEval n) = List.range (n + 1) := by
  induction n with
  | zero => decide
  | succ k ih =>
    rw [traceUpToEval_succ, List.range_succ]
    simp [Box.scopesCreated, List.filterMap_append] at ih ⊢
    simp [ih, Box.iterPreEval, Box.scopesCreated]

/-- Helper: by the time iteration `n` evaluates, scopes `0..n-1` have been
cancelled. -/
theorem scopesCancelled_traceUpToEval (n : Nat) :
    Box.scopesCancelled (Box.traceUpToEval n) = List.range n := by
  induction n with
  | zero => decide
  | succ k ih =>
    rw [traceUpToEval_succ, List.range_succ]
    simp [Box.scopesCancelled, List.filterMap_append] at ih ⊢
    simp [ih, Box.iterPreEval, Box.scopesCancelled]

/-- C6: when iteration `n` of the interactive loop reaches its evaluation,
the only cancellation scope still active is iteration `n`'s own freshly
created scope (every earlier iteration's scope has already been cancelled);
that scope was registered with the coordinator before evaluation; and with
the coordinator in interactive mode (`Exit = false`, as `NewRepl` sets it)
a `Trigger()` call cancels exactly the registered cancel functions, clears
the registry, and does not terminate the process. -/
theorem C6_fresh_scope_per_iteration (n : Nat) (fs : List Nat) :
    Box.activeScopes (Box.traceUpToEval n) = [n]
    ∧ Box.LoopEvent.registerScope n ∈ Box.traceUpToEval n
    ∧ Box.SignalHandler.trigger ⟨Box.replHandlerExitFlag, fs⟩
        = (⟨Box.replHandlerExitFlag, []⟩, fs, false) := by
  refine ⟨?_, ?_, rfl⟩
  · unfold Box.activeScopes
    rw [scopesCreated_traceUpToEval, scopesCancelled_traceUpToEval,
      List.range_succ, List.filter_append]
    have h1 : (List.range n).filter (fun k => decide (k ∉ List.range n)) = [] := by
      simp
    have h2 : [n].filter (fun k => decide (k ∉ List.range n)) = [n] := by
      simp [List.mem_range]
    rw [h1, h2, List.nil_append]
  · simp [Box.traceUpToEval, Box.iterPreEval]
